import Mathlib

/-!
Verification development for `stream_mapper/visualization/_diagnostic.py`.

The module draws diagnostic panels for a stellar-stream mixture model:
a decorator `_with_ax_panels` resolving the two sub-panels of a coordinate
cell, a per-component trend renderer `_plot_coordinate_component`, a
per-coordinate panel renderer `_plot_coordinate_panel`, and the composer
`astrometric_model_panels`.

Embedding conventions:

* The matplotlib drawing surface is external; an `Axes` is modelled as a
  trace of draw operations (`ops`) plus the queryable state the module
  sets (labels, y-limits, y-scale, legend, tick-label visibility).
  `ax.plot` consumes the colour cycle exactly when no colour is given and
  returns the assigned colour (the module reads it via `im[0].get_color()`).
* Arrays are `List` over a linear ordered field; `numpy.exp` and
  `numpy.log` are the function parameters `npExp`/`npLog` (claims about
  exponentiation instantiate `npExp := Real.exp` at `α := ℝ`); `.flatten()`
  on 1-D arrays is the identity and is dropped.
* `Data` (external `stream_mapper.core.Data`) is a table of named columns.
* `Params` (external `stream_mapper.core.Params`) is modelled from the
  spec as a flat mapping from dotted parameter names to arrays, a dotted
  name being represented as its list of segments: the module accesses it
  by full dotted keys (`mpars.get(f"{comp}.{WEIGHT_NAME}")`,
  `mpars[(f"{BACKGROUND_KEY}.{WEIGHT_NAME}",)]`), via
  `get_prefixed(component)` which strips the `component + "."` prefix,
  by per-coordinate pairs (`ps[coord, "mu"]`), and by key membership
  (`"weight" in ps`, `"weight" in mpars`).
* Python exceptions (`KeyError`, `ValueError`) are `Except.error`.
* `numpy` boolean-mask indexing `arr[mask]` keeps the rows where the mask
  is true; `arr[None]` (the `where is None` case of the mean-line draw) is
  modelled as the unrestricted array.
-/

namespace StreamMapperViz

variable {α : Type} [LinearOrderedField α] {β : Type} {R : Type}

/-- Modelled from the spec: the reserved background component name
(`BACKGROUND_KEY` from the external `stream_mapper.core.setup_package`). -/
def BACKGROUND_KEY : String := "background"

/-- Modelled from the spec: the name of the weight parameter
(`WEIGHT_NAME` from the external `stream_mapper.core`). -/
def WEIGHT_NAME : String := "weight"

/-- Draw operation recorded on an axes: a line plot, a 2-D histogram, or a
filled band (`fill_between` with its `where` mask). -/
inductive PlotOp (α : Type) where
  | line (x y : List α) (label : Option String) (color : String)
  | hist2d (x y : List α) (bins : ℕ) (cmap : String)
  | fillBetween (x y1 y2 : List α) (facecolor : String) (alpha : ℚ)
      (whereMask : Option (List Bool))
deriving DecidableEq

/-- Queryable axes state set by the module: axis labels, y-limits, y-scale,
x-tick-label visibility, and the attached legend's font size (matplotlib
keeps a single legend per axes; `ax.legend` replaces it). -/
structure AxMeta (α : Type) where
  xlabel : Option String := none
  ylabel : Option String := none
  ylim : Option (α × α) := none
  yscale : String := "linear"
  xTickLabels : Bool := true
  legendFs : Option ℚ := none
deriving DecidableEq

/-- Model of a matplotlib axes: the trace of draw operations, the position
in the automatic colour cycle, and the queryable state. -/
structure Axes (α : Type) where
  ops : List (PlotOp α) := []
  cycleIdx : ℕ := 0
  meta : AxMeta α := {}
deriving DecidableEq

/-- Automatic colour assigned by the matplotlib property cycle. -/
def autoColor (n : ℕ) : String := "C" ++ toString n

/-- Model of `ax.plot(x, y, label=…, color=…)`: records the line and returns
the updated axes together with the colour assigned to the line (read by the
module via `im[0].get_color()`).  A line given no explicit colour consumes
the colour cycle. -/
def Axes.plot (ax : Axes α) (x y : List α) (label : Option String)
    (color : Option String) : Axes α × String :=
  let c := color.getD (autoColor ax.cycleIdx)
  ({ ax with
      ops := ax.ops ++ [.line x y label c],
      cycleIdx := if color.isSome then ax.cycleIdx else ax.cycleIdx + 1 }, c)

/-- Model of `ax.fill_between(x, y1=…, y2=…, facecolor=…, alpha=…, where=…)`. -/
def Axes.fill_between (ax : Axes α) (x y1 y2 : List α) (facecolor : String)
    (alpha : ℚ) (whereMask : Option (List Bool)) : Axes α :=
  { ax with ops := ax.ops ++ [.fillBetween x y1 y2 facecolor alpha whereMask] }

/-- Model of `ax.hist2d(x, y, bins=…, cmap="Greys", norm=LogNorm())`
(the norm is a display detail and is not recorded). -/
def Axes.hist2dDraw (ax : Axes α) (x y : List α) (bins : ℕ) : Axes α :=
  { ax with ops := ax.ops ++ [.hist2d x y bins "Greys"] }

/-- Model of `ax.set_ylim(lo, hi)`. -/
def Axes.set_ylim (ax : Axes α) (lo hi : α) : Axes α :=
  { ax with meta := { ax.meta with ylim := some (lo, hi) } }

/-- Model of `ax.legend(fontsize=…)`: attaches (or replaces) the legend. -/
def Axes.legend (ax : Axes α) (fontsize : ℚ) : Axes α :=
  { ax with meta := { ax.meta with legendFs := some fontsize } }

/-- Model of `ax.set_yscale(s)`. -/
def Axes.set_yscale (ax : Axes α) (s : String) : Axes α :=
  { ax with meta := { ax.meta with yscale := s } }

/-- Model of `ax.set_xlabel(s)`. -/
def Axes.set_xlabel (ax : Axes α) (s : String) : Axes α :=
  { ax with meta := { ax.meta with xlabel := some s } }

/-- Model of `ax.set_ylabel(s)`. -/
def Axes.set_ylabel (ax : Axes α) (s : String) : Axes α :=
  { ax with meta := { ax.meta with ylabel := some s } }

/-- Model of `ax.tick_params(axis="x", labelbottom=False)`. -/
def Axes.hideXTickLabels (ax : Axes α) : Axes α :=
  { ax with meta := { ax.meta with xTickLabels := false } }

/-- Modelled from the spec: the external `Data` table of named equal-length
float columns. -/
structure DataT (α : Type) where
  cols : List (String × List α)
deriving DecidableEq

/-- Column access `data[name]` (`.flatten()` on the 1-D column is dropped). -/
def DataT.getCol (d : DataT α) (name : String) : Option (List α) :=
  (d.cols.find? (fun e => e.1 == name)).map (fun e => e.2)

/-- Modelled from the spec: the external `stream_mapper.core.Params`
container, as a flat mapping from dotted parameter names to arrays; a
dotted name is represented by its list of segments, e.g.
`["stream", "phi2", "mu"]` for `"stream.phi2.mu"`. -/
structure Params (α : Type) where
  entries : List (List String × List α)
deriving DecidableEq

/-- Lookup of a full dotted key; `none` is Python's `.get` default / the
`KeyError` case of direct indexing. -/
def Params.get (p : Params α) (key : List String) : Option (List α) :=
  (p.entries.find? (fun e => e.1 == key)).map (fun e => e.2)

/-- Model of `mpars.get_prefixed(component)`: the sub-mapping of keys
starting with `component + "."`, with that prefix stripped. -/
def Params.get_prefixed (p : Params α) (component : String) : Params α :=
  ⟨p.entries.filterMap (fun e =>
    match e.1 with
    | [] => none
    | c :: rest =>
        if c == component && !rest.isEmpty then some (rest, e.2) else none)⟩

/-- Model of `name in params`: whether the (dotted) key `name` is a key of
the mapping, i.e. whether the one-segment path `[name]` has an entry. -/
def Params.memStr (p : Params α) (name : String) : Bool :=
  p.entries.any (fun e => e.1 == [name])

/-- Boolean-mask indexing: `arr[mask]` keeps the entries at true positions;
the absent mask (`where is None`) leaves the array unrestricted. -/
def pyIndex (xs : List α) (m : Option (List Bool)) : List α :=
  match m with
  | none => xs
  | some mask => (xs.zip mask).filterMap (fun p => if p.2 then some p.1 else none)

/-- Model of `dict.get(k, d)` for the `coord2par` remapping. -/
def lookupD (l : List (String × String)) (k d : String) : String :=
  ((l.find? (fun e => e.1 == k)).map (fun e => e.2)).getD d

/-- Model of a raising lookup: `KeyError` when the key is absent. -/
def keyErr (o : Option β) (key : String) : Except String β :=
  match o with
  | some v => .ok v
  | none => .error ("KeyError: " ++ key)

/-- Model of `arr.min()`: numpy raises on an empty array. -/
def numpyMin [LinearOrder β] (xs : List β) : Except String β :=
  match xs.min? with
  | some v => .ok v
  | none => .error "ValueError: zero-size array reduction"

/-- Model of `arr.max()`: numpy raises on an empty array. -/
def numpyMax [LinearOrder β] (xs : List β) : Except String β :=
  match xs.max? with
  | some v => .ok v
  | none => .error "ValueError: zero-size array reduction"

/-- Whether an `Except` is a success. -/
def exOk (e : Except String β) : Bool :=
  match e with
  | .ok _ => true
  | .error _ => false

/-- The recognised `**kwargs` configuration bag (each field's default is the
`kwargs.get` default used by the module); `has_coord` records whether the
deprecated singular key `"coord"` was passed. -/
structure KW where
  has_coord : Bool := false
  use_hist : Bool := false
  bins : ℕ := 100
  legend_fontsize : Option ℚ := none
  top_legend_fontsize : Option ℚ := none
  top_yscale : String := "linear"
deriving DecidableEq

/-- The layout keyword arguments inspected by `_with_ax_panels`; an outer
`none` means the keyword is absent (`"ax" in kwargs` etc.).  `ax_top` may be
present with value `None`, hence the nested option; `fig` and `gs` only
matter by presence here (the grid cell is subdivided internally). -/
structure PanelLayout (α : Type) where
  ax : Option (Axes α) := none
  ax_top : Option (Option (Axes α)) := none
  fig : Option Unit := none
  gs : Option Unit := none

/-- Model of the `_with_ax_panels` decorator: use the passed sub-panels if
both `ax` and `ax_top` are present; otherwise, if `fig` and `gs` are
present, subdivide the cell (height ratio 1:3), create the value panel
(x-label `$\phi_1$`, y-label from `LABEL_DEFAULTS` with fallback to the
coordinate name) and the weight panel (shared x-axis, hidden x tick labels,
y-label `weight`); otherwise raise `KeyError`.  `labelDefaults` stands for
the external `LABEL_DEFAULTS` table. -/
def with_ax_panels (f : Axes α → Option (Axes α) → Except String R)
    (labelDefaults : List (String × String)) (coord : String)
    (layout : PanelLayout α) : Except String R :=
  match layout.ax, layout.ax_top with
  | some ax, some axTop => f ax axTop
  | _, _ =>
    match layout.fig, layout.gs with
    | some _, some _ =>
      let ax : Axes α :=
        ((Axes.set_xlabel {} "$\\phi_1$").set_ylabel (lookupD labelDefaults coord coord))
      let axTop : Axes α := (Axes.hideXTickLabels {}).set_ylabel "weight"
      f ax (some axTop)
    | _, _ => .error "Must provide either `ax` and `ax_top` or `fig` and `gs`."

/-- Body of `_plot_coordinate_component` (after `_with_ax_panels` resolved
the panels): fetch the component's prefixed parameters, draw the masked
mean line (capturing its colour), the `mean ± 2·exp(ln_sigma)` band at
alpha 0.25 and the `mean ± exp(ln_sigma)` band at alpha 0.5 (both with the
`where` mask), and, when a weight panel is supplied and the component has a
`weight` entry, draw the unmasked weight curve labelled
`component + "[weight]"` (log-transformed when `log_weight`).  The
independent values are the hardcoded `data["phi1"]` column. -/
def plot_coordinate_component_core (npExp npLog : α → α) (data : DataT α)
    (mpars : Params α) (component coord : String) (log_weight : Bool)
    (whereMask : Option (List Bool)) (ax : Axes α) (ax_top : Option (Axes α))
    (y yErr : String) : Except String (Axes α × Option (Axes α)) :=
  let ps := mpars.get_prefixed component
  match keyErr (data.getCol "phi1") "phi1" with
  | .error e => .error e
  | .ok phi1 =>
    match keyErr (ps.get [coord, y]) (coord ++ "." ++ y) with
    | .error e => .error e
    | .ok mu =>
      match keyErr (ps.get [coord, yErr]) (coord ++ "." ++ yErr) with
      | .error e => .error e
      | .ok lns =>
        let yerr := lns.map npExp
        let pr := ax.plot (pyIndex phi1 whereMask) (pyIndex mu whereMask)
          (some component) none
        let fc := pr.2
        let ax2 := pr.1.fill_between phi1
          (List.zipWith (fun a b => a + b) mu (yerr.map (fun v => 2 * v)))
          (List.zipWith (fun a b => a - b) mu (yerr.map (fun v => 2 * v)))
          fc (1/4) whereMask
        let ax3 := ax2.fill_between phi1
          (List.zipWith (fun a b => a + b) mu yerr)
          (List.zipWith (fun a b => a - b) mu yerr)
          fc (1/2) whereMask
        let axTop2 : Option (Axes α) :=
          match ax_top with
          | none => none
          | some t =>
            if ps.memStr "weight" then
              let w := (ps.get ["weight"]).getD []
              some (t.plot phi1 (if log_weight then w.map npLog else w)
                (some (component ++ "[weight]")) none).1
            else some t
        .ok (ax3, axTop2)

/-- The decorated `_plot_coordinate_component`. -/
def plot_coordinate_component (npExp npLog : α → α) (data : DataT α)
    (mpars : Params α) (component coord : String) (log_weight : Bool)
    (whereMask : Option (List Bool)) (y yErr : String)
    (labelDefaults : List (String × String)) (layout : PanelLayout α) :
    Except String (Axes α × Option (Axes α)) :=
  with_ax_panels
    (fun ax axTop =>
      plot_coordinate_component_core npExp npLog data mpars component coord
        log_weight whereMask ax axTop y yErr)
    labelDefaults coord layout

/-- Iteration list of the generic per-component loop of
`_plot_coordinate_panel`: `components.index(BACKGROUND_KEY)` names the
first occurrence of the background key and the surrounding slices remove
exactly that occurrence. -/
def loopComponents (components : List String) : List String :=
  if BACKGROUND_KEY ∈ components then
    components.take (components.indexOf BACKGROUND_KEY) ++
      components.drop (components.indexOf BACKGROUND_KEY + 1)
  else components

/-- One iteration of the generic per-component loop of
`_plot_coordinate_panel`: resolve the component's weight with
`mpars.get(f"{comp}.{WEIGHT_NAME}")`, compute the visibility mask
`weight >= min_weight` (absent weight gives no mask) and delegate to the
decorated component renderer with the remapped coordinate name and
parameter names `"mu"` / `"ln-sigma"`, passing the current sub-panels. -/
def panelLoopStep (npExp npLog : α → α)
    (labelDefaults : List (String × String)) (data : DataT α)
    (mpars : Params α) (coord : String) (coord2par : List (String × String))
    (log_weight : Bool) (min_weight : α) (comp : String)
    (p : Axes α × Axes α) : Except String (Axes α × Axes α) :=
  match plot_coordinate_component npExp npLog data mpars comp
      (lookupD coord2par coord coord) log_weight
      ((mpars.get [comp, WEIGHT_NAME]).map
        (fun w => w.map (fun x => decide (min_weight ≤ x))))
      "mu" "ln-sigma" labelDefaults
      { ax := some p.1, ax_top := some (some p.2), fig := none, gs := none } with
  | .error e => .error e
  | .ok r => .ok (r.1, r.2.getD p.2)

/-- The generic per-component loop of `_plot_coordinate_panel`. -/
def panelLoop (npExp npLog : α → α) (labelDefaults : List (String × String))
    (data : DataT α) (mpars : Params α) (coord : String)
    (coord2par : List (String × String)) (log_weight : Bool) (min_weight : α)
    (comps : List String) (p : Axes α × Axes α) :
    Except String (Axes α × Axes α) :=
  match comps with
  | [] => .ok p
  | c :: rest =>
    match panelLoopStep npExp npLog labelDefaults data mpars coord coord2par
        log_weight min_weight c p with
    | .error e => .error e
    | .ok q =>
      panelLoop npExp npLog labelDefaults data mpars coord coord2par
        log_weight min_weight rest q

/-- Body of `_plot_coordinate_panel` (after `_with_ax_panels`): draw the raw
data (scatter, or 2-D histogram when `use_hist`); remove the first
occurrence of the background key from the component list and, when present,
draw its weight curve (via the raising lookup
`mpars[(f"{BACKGROUND_KEY}.{WEIGHT_NAME}",)]`) in black on the weight
panel; run the generic per-component loop; then clamp the value panel's
y-limits to the data column's min/max, attach the value-panel legend,
attach the weight-panel legend only when `"weight" in mpars`, and set the
weight panel's y-scale. -/
def plot_coordinate_panel_core (npExp npLog : α → α)
    (labelDefaults : List (String × String)) (data : DataT α)
    (mpars : Params α) (indep_coord coord : String) (components : List String)
    (coord2par : List (String × String)) (log_weight : Bool) (min_weight : α)
    (kw : KW) (rcFontSize : ℚ) (ax axTop : Axes α) :
    Except String (Axes α × Axes α) :=
  match keyErr (data.getCol indep_coord) indep_coord with
  | .error e => .error e
  | .ok xcol =>
  match keyErr (data.getCol coord) coord with
  | .error e => .error e
  | .ok ycol =>
    let ax1 := if kw.use_hist then ax.hist2dDraw xcol ycol kw.bins
      else (ax.plot xcol ycol none (some "black")).1
    match (if BACKGROUND_KEY ∈ components then
        match keyErr (mpars.get [BACKGROUND_KEY, WEIGHT_NAME])
            (BACKGROUND_KEY ++ "." ++ WEIGHT_NAME) with
        | .error e => .error e
        | .ok w =>
          .ok (axTop.plot xcol (if log_weight then w.map npLog else w)
            (some "background[weight]") (some "black")).1
      else .ok axTop : Except String (Axes α)) with
    | .error e => .error e
    | .ok axTop1 =>
    match panelLoop npExp npLog labelDefaults data mpars coord coord2par
        log_weight min_weight (loopComponents components) (ax1, axTop1) with
    | .error e => .error e
    | .ok q =>
    match numpyMin ycol with
    | .error e => .error e
    | .ok lo =>
    match numpyMax ycol with
    | .error e => .error e
    | .ok hi =>
      let ax2 := (q.1.set_ylim lo hi).legend (kw.legend_fontsize.getD rcFontSize)
      let axTop2 := if mpars.memStr "weight" then
          q.2.legend (kw.top_legend_fontsize.getD rcFontSize)
        else q.2
      .ok (ax2, axTop2.set_yscale kw.top_yscale)

/-- The decorated `_plot_coordinate_panel`; an `ax_top` passed with value
`None` would make the body fail at its first use of the weight panel, which
is modelled as an error. -/
def plot_coordinate_panel (npExp npLog : α → α)
    (labelDefaults : List (String × String)) (data : DataT α)
    (mpars : Params α) (indep_coord coord : String) (components : List String)
    (coord2par : List (String × String)) (log_weight : Bool) (min_weight : α)
    (kw : KW) (rcFontSize : ℚ) (layout : PanelLayout α) :
    Except String (Axes α × Axes α) :=
  with_ax_panels
    (fun ax axTopOpt =>
      match axTopOpt with
      | some axTop =>
        plot_coordinate_panel_core npExp npLog labelDefaults data mpars
          indep_coord coord components coord2par log_weight min_weight kw
          rcFontSize ax axTop
      | none => .error "TypeError: ax_top is None")
    labelDefaults coord layout

/-- Per-coordinate loop of `astrometric_model_panels`: each coordinate gets
one grid cell, rendered through the decorated panel renderer with the
hardcoded independent coordinate `"phi1"`; the resulting sub-panel pairs
are what the produced figure holds. -/
def astroLoop (npExp npLog : α → α) (labelDefaults : List (String × String))
    (data : DataT α) (mpars : Params α) (components : List String)
    (coord2par : List (String × String)) (log_weight : Bool) (min_weight : α)
    (kw : KW) (rcFontSize : ℚ) (coords : List String)
    (acc : List (Axes α × Axes α)) :
    Except String (List (Axes α × Axes α)) :=
  match coords with
  | [] => .ok acc
  | cn :: rest =>
    match plot_coordinate_panel npExp npLog labelDefaults data mpars "phi1" cn
        components coord2par log_weight min_weight kw rcFontSize
        { ax := none, ax_top := none, fig := some (), gs := some () } with
    | .error e => .error e
    | .ok r =>
      astroLoop npExp npLog labelDefaults data mpars components coord2par
        log_weight min_weight kw rcFontSize rest (acc ++ [r])

/-- Body of `astrometric_model_panels`: reject the deprecated singular
`coord` keyword with a `ValueError` before the figure and its grid are
created, then render one cell per requested coordinate.  The out-of-src
decorators (`make_tuple`, `add_savefig_option`, `with_tight_layout`) are
modelled from the spec as pass-through wrappers that create no figure; the
returned figure is modelled as its list of per-coordinate sub-panel
pairs. -/
def astrometric_model_panels (npExp npLog : α → α)
    (labelDefaults : List (String × String)) (data : DataT α)
    (mpars : Params α) (components coords : List String)
    (coord2par : Option (List (String × String))) (log_weight : Bool)
    (min_weight : α) (kw : KW) (rcFontSize : ℚ) :
    Except String (List (Axes α × Axes α)) :=
  if kw.has_coord then .error "Use `coords` instead of `coord`."
  else
    astroLoop npExp npLog labelDefaults data mpars components
      (coord2par.getD []) log_weight min_weight kw rcFontSize coords []

/-!
Helper lemmas: full symbolic unfoldings of the renderers, preservation of
the queryable axes state through the drawing stages, and bookkeeping about
`Params` keys and the background filtering.
-/

/-- Complete description of one successful run of the component renderer
body: the value panel gains the masked mean line and the two bands, the
weight panel gains the unmasked weight curve exactly when the component has
a `weight` entry. -/
theorem component_core_spec (npExp npLog : α → α) (data : DataT α)
    (mpars : Params α) (component coord : String) (log_weight : Bool)
    (m : Option (List Bool)) (ax : Axes α) (ax_top : Option (Axes α))
    (y yErr : String) (phi1 mu lns : List α)
    (hphi : data.getCol "phi1" = some phi1)
    (hmu : (mpars.get_prefixed component).get [coord, y] = some mu)
    (hlns : (mpars.get_prefixed component).get [coord, yErr] = some lns) :
    plot_coordinate_component_core npExp npLog data mpars component coord
      log_weight m ax ax_top y yErr =
    .ok
      ({ ax with
          ops := ax.ops ++
            [.line (pyIndex phi1 m) (pyIndex mu m) (some component)
               (autoColor ax.cycleIdx),
             .fillBetween phi1
               (List.zipWith (fun a b => a + b) mu
                 ((lns.map npExp).map (fun v => 2 * v)))
               (List.zipWith (fun a b => a - b) mu
                 ((lns.map npExp).map (fun v => 2 * v)))
               (autoColor ax.cycleIdx) (1/4) m,
             .fillBetween phi1
               (List.zipWith (fun a b => a + b) mu (lns.map npExp))
               (List.zipWith (fun a b => a - b) mu (lns.map npExp))
               (autoColor ax.cycleIdx) (1/2) m],
          cycleIdx := ax.cycleIdx + 1 },
       match ax_top with
       | none => none
       | some t =>
         if (mpars.get_prefixed component).memStr "weight" then
           some { t with
             ops := t.ops ++
               [.line phi1
                 (if log_weight then
                    (((mpars.get_prefixed component).get ["weight"]).getD []).map npLog
                  else ((mpars.get_prefixed component).get ["weight"]).getD [])
                 (some (component ++ "[weight]")) (autoColor t.cycleIdx)],
             cycleIdx := t.cycleIdx + 1 }
         else some t) := by
  simp [plot_coordinate_component_core, hphi, hmu, hlns, keyErr, Axes.plot,
    Axes.fill_between]

/-- The component renderer body only appends draw operations: a successful
run preserves the queryable state of the value panel and of the weight
panel it was given. -/
theorem component_core_ok_meta (npExp npLog : α → α) (data : DataT α)
    (mpars : Params α) (component coord : String) (log_weight : Bool)
    (m : Option (List Bool)) (ax : Axes α) (ax_top : Option (Axes α))
    (y yErr : String) {a : Axes α} {u : Option (Axes α)}
    (h : plot_coordinate_component_core npExp npLog data mpars component coord
      log_weight m ax ax_top y yErr = .ok (a, u)) :
    a.meta = ax.meta ∧ ∀ t, ax_top = some t → ∃ u1, u = some u1 ∧ u1.meta = t.meta := by
  cases hphi : data.getCol "phi1" with
  | none => simp [plot_coordinate_component_core, keyErr, hphi] at h
  | some phi1 =>
    cases hmu : (mpars.get_prefixed component).get [coord, y] with
    | none => simp [plot_coordinate_component_core, keyErr, hphi, hmu] at h
    | some mu =>
      cases hlns : (mpars.get_prefixed component).get [coord, yErr] with
      | none => simp [plot_coordinate_component_core, keyErr, hphi, hmu, hlns] at h
      | some lns =>
        rw [component_core_spec npExp npLog data mpars component coord
          log_weight m ax ax_top y yErr phi1 mu lns hphi hmu hlns] at h
        simp only [Except.ok.injEq, Prod.mk.injEq] at h
        obtain ⟨ha, hu⟩ := h
        subst ha
        constructor
        · rfl
        · intro t ht
          subst ht
          subst hu
          by_cases hw : (mpars.get_prefixed component).memStr "weight"
          · simp only [hw, if_true]
            exact ⟨_, rfl, rfl⟩
          · simp only [hw, Bool.false_eq_true, if_false]
            exact ⟨t, rfl, rfl⟩

/-- One loop iteration of the panel renderer preserves the queryable state
of both sub-panels. -/
theorem panelLoopStep_meta (npExp npLog : α → α)
    (labelDefaults : List (String × String)) (data : DataT α)
    (mpars : Params α) (coord : String) (coord2par : List (String × String))
    (log_weight : Bool) (min_weight : α) (comp : String)
    {p q : Axes α × Axes α}
    (h : panelLoopStep npExp npLog labelDefaults data mpars coord coord2par
      log_weight min_weight comp p = .ok q) :
    q.1.meta = p.1.meta ∧ q.2.meta = p.2.meta := by
  rw [panelLoopStep, plot_coordinate_component, with_ax_panels] at h
  simp only at h
  cases hc : plot_coordinate_component_core npExp npLog data mpars comp
      (lookupD coord2par coord coord) log_weight
      ((mpars.get [comp, WEIGHT_NAME]).map
        (fun w => w.map (fun x => decide (min_weight ≤ x))))
      p.1 (some p.2) "mu" "ln-sigma" with
  | error e => rw [hc] at h; exact Except.noConfusion h
  | ok r =>
    rw [hc] at h
    simp only [Except.ok.injEq] at h
    obtain ⟨hmeta, htop⟩ := component_core_ok_meta _ _ _ _ _ _ _ _ _ _ _ _ hc
    obtain ⟨u1, hu1, hu1m⟩ := htop p.2 rfl
    subst h
    refine ⟨hmeta, ?_⟩
    simp [hu1, hu1m]

/-- The whole per-component loop preserves the queryable state of both
sub-panels. -/
theorem panelLoop_meta (npExp npLog : α → α)
    (labelDefaults : List (String × String)) (data : DataT α)
    (mpars : Params α) (coord : String) (coord2par : List (String × String))
    (log_weight : Bool) (min_weight : α) (comps : List String) :
    ∀ {p q : Axes α × Axes α},
      panelLoop npExp npLog labelDefaults data mpars coord coord2par
        log_weight min_weight comps p = .ok q →
      q.1.meta = p.1.meta ∧ q.2.meta = p.2.meta := by
  induction comps with
  | nil =>
    intro p q h
    simp only [panelLoop, Except.ok.injEq] at h
    subst h
    exact ⟨rfl, rfl⟩
  | cons c rest ih =>
    intro p q h
    rw [panelLoop] at h
    cases hs : panelLoopStep npExp npLog labelDefaults data mpars coord
        coord2par log_weight min_weight c p with
    | error e => rw [hs] at h; exact Except.noConfusion h
    | ok r =>
      rw [hs] at h
      obtain ⟨h1, h2⟩ := panelLoopStep_meta _ _ _ _ _ _ _ _ _ _ hs
      obtain ⟨h3, h4⟩ := ih h
      exact ⟨h3.trans h1, h4.trans h2⟩

/-- The `index`-and-slice filtering of the background key removes exactly
the first occurrence, i.e. it is `List.erase`. -/
theorem loopComponents_eq_erase (cs : List String) :
    loopComponents cs = cs.erase BACKGROUND_KEY := by
  induction cs with
  | nil => simp [loopComponents]
  | cons h t ih =>
    by_cases hh : h = BACKGROUND_KEY
    · subst hh
      simp [loopComponents, List.indexOf_cons_self, List.erase_cons_head]
    · rw [List.erase_cons_tail (by simpa using hh)]
      by_cases hm : BACKGROUND_KEY ∈ t
      · have hmem : BACKGROUND_KEY ∈ h :: t := List.mem_cons_of_mem h hm
        rw [loopComponents, if_pos hmem, List.indexOf_cons_ne t hh,
          Nat.succ_eq_add_one, List.take_succ_cons, List.drop_succ_cons,
          List.cons_append, ← ih, loopComponents, if_pos hm]
      · have hnm : BACKGROUND_KEY ∉ h :: t := by
          simp only [List.mem_cons, not_or]
          exact ⟨fun hbg => hh hbg.symm, hm⟩
        rw [loopComponents, if_neg hnm, List.erase_of_not_mem hm]

omit [LinearOrderedField α] in
/-- Retrieval of a one-segment key implies key membership. -/
theorem memStr_of_get {p : Params α} {s : String} {w : List α}
    (h : p.get [s] = some w) : p.memStr s = true := by
  rw [Params.get] at h
  cases hf : p.entries.find? (fun e => e.1 == [s]) with
  | none => rw [hf] at h; exact Option.noConfusion h
  | some e =>
    rw [Params.memStr, List.any_eq_true]
    exact ⟨e, List.mem_of_find?_eq_some hf,
      @List.find?_some _ (fun x => x.1 == [s]) e p.entries hf⟩

omit [LinearOrderedField α] in
/-- A component with no `weight` key in its prefixed sub-mapping has no
`component.weight` entry in the full mapping. -/
theorem get_weight_none_of_not_memStr {mpars : Params α} {comp : String}
    (h : (mpars.get_prefixed comp).memStr "weight" = false) :
    mpars.get [comp, WEIGHT_NAME] = none := by
  cases hg : mpars.get [comp, WEIGHT_NAME] with
  | none => rfl
  | some w =>
    exfalso
    rw [Params.get] at hg
    cases hf : mpars.entries.find? (fun e => e.1 == [comp, WEIGHT_NAME]) with
    | none => rw [hf] at hg; exact Option.noConfusion hg
    | some e =>
      have hkey : e.1 = [comp, WEIGHT_NAME] := by
        have hb := @List.find?_some _ (fun x => x.1 == [comp, WEIGHT_NAME])
          e mpars.entries hf
        simpa using hb
      have hmem : e ∈ mpars.entries := List.mem_of_find?_eq_some hf
      have hpref : (["weight"], e.2) ∈ (mpars.get_prefixed comp).entries := by
        rw [Params.get_prefixed]
        rw [List.mem_filterMap]
        refine ⟨e, hmem, ?_⟩
        rw [hkey]
        simp [WEIGHT_NAME]
      have : (mpars.get_prefixed comp).memStr "weight" = true := by
        rw [Params.memStr, List.any_eq_true]
        exact ⟨(["weight"], e.2), hpref, by simp⟩
      rw [h] at this
      exact Bool.noConfusion this

/-- Outcome of a successful run of the panel renderer body on the
queryable axes state: the value panel's y-limits are set to the data
column's min/max and its legend is attached unconditionally; the weight
panel's legend is attached exactly when `"weight"` is a key of `mpars`,
and its y-scale is set; everything else is preserved. -/
theorem panel_core_spec (npExp npLog : α → α)
    (labelDefaults : List (String × String)) (data : DataT α)
    (mpars : Params α) (indep_coord coord : String) (components : List String)
    (coord2par : List (String × String)) (log_weight : Bool) (min_weight : α)
    (kw : KW) (rcFontSize : ℚ) (ax axTop : Axes α) {a t : Axes α}
    (h : plot_coordinate_panel_core npExp npLog labelDefaults data mpars
      indep_coord coord components coord2par log_weight min_weight kw
      rcFontSize ax axTop = .ok (a, t)) :
    ∃ ycol lo hi, data.getCol coord = some ycol ∧
      numpyMin ycol = .ok lo ∧ numpyMax ycol = .ok hi ∧
      a.meta = { ax.meta with
                 ylim := some (lo, hi),
                 legendFs := some (kw.legend_fontsize.getD rcFontSize) } ∧
      t.meta = { axTop.meta with
                 legendFs := if mpars.memStr "weight" then
                     some (kw.top_legend_fontsize.getD rcFontSize)
                   else axTop.meta.legendFs,
                 yscale := kw.top_yscale } := by
  cases hx : data.getCol indep_coord with
  | none => simp [plot_coordinate_panel_core, keyErr, hx] at h
  | some xcol =>
  cases hy : data.getCol coord with
  | none => simp [plot_coordinate_panel_core, keyErr, hx, hy] at h
  | some ycol =>
    simp only [plot_coordinate_panel_core, keyErr, hx, hy] at h
    split at h
    next e heq => exact Except.noConfusion h
    next axTop1 heq =>
      have hTop1 : axTop1.meta = axTop.meta := by
        by_cases hbg : BACKGROUND_KEY ∈ components
        · rw [if_pos hbg] at heq
          cases hw : mpars.get [BACKGROUND_KEY, WEIGHT_NAME] with
          | none => simp [keyErr, hw] at heq
          | some w =>
            simp only [keyErr, hw, Except.ok.injEq] at heq
            subst heq
            rfl
        · rw [if_neg hbg] at heq
          simp only [Except.ok.injEq] at heq
          subst heq
          rfl
      split at h
      next e heq2 => exact Except.noConfusion h
      next q heq2 =>
        obtain ⟨hq1, hq2⟩ := panelLoop_meta _ _ _ _ _ _ _ _ _ _ heq2
        have hax1m : q.1.meta = ax.meta := by
          rw [hq1]
          split
          · rfl
          · rfl
        have hq2m : q.2.meta = axTop.meta := hq2.trans hTop1
        split at h
        next e heq3 => exact Except.noConfusion h
        next lo heq3 =>
          split at h
          next e heq4 => exact Except.noConfusion h
          next hi heq4 =>
            simp only [Except.ok.injEq, Prod.mk.injEq] at h
            obtain ⟨ha, ht⟩ := h
            subst ha
            subst ht
            refine ⟨ycol, lo, hi, rfl, heq3, heq4, ?_, ?_⟩
            · simp [Axes.set_ylim, Axes.legend, hax1m]
            · cases hmw : mpars.memStr "weight" with
              | false => simp [hmw, Axes.set_yscale, hq2m]
              | true => simp [hmw, Axes.legend, Axes.set_yscale, hq2m]

/-!
Concrete fixtures used by witnesses and counterexamples (rational data,
`numpy.exp`/`numpy.log` instantiated with `id` where their values are
irrelevant to the property at hand).
-/

/-- Example data table: independent column `phi1`, an alternative column
`x`, dependent column `phi2`. -/
def exData : DataT ℚ := ⟨[("phi1", [0, 1]), ("x", [5, 6]), ("phi2", [1, 2])]⟩

/-- Example parameters: one component `stream` with a weight and `phi2`
mean / log-sigma arrays (dotted keys as segment lists). -/
def exParams : Params ℚ :=
  ⟨[(["stream", "weight"], [1, 1]),
    (["stream", "phi2", "mu"], [0, 0]),
    (["stream", "phi2", "ln-sigma"], [0, 0])]⟩

/-- Example parameters without any weight entry. -/
def exParamsNoW : Params ℚ :=
  ⟨[(["stream", "phi2", "mu"], [0, 0]),
    (["stream", "phi2", "ln-sigma"], [0, 0])]⟩

/-!
C1 — background filtering of the generic per-component loop.
-/

/-- C1 counterexample: when the background key occurs twice among the
requested components, the iteration list of the generic per-component loop
still contains the background key — `components.index(BACKGROUND_KEY)` and
the two slices around it remove only the first occurrence, so the claim
"the background key is always filtered out of the iteration list …
including when it occurs more than once" is false. -/
theorem c1_counterexample :
    BACKGROUND_KEY ∈ loopComponents [BACKGROUND_KEY, BACKGROUND_KEY] := by
  decide

/-- C1 (amended): provided the background key occurs at most once among the
requested components, it is never in the iteration list of the generic
per-component loop of `_plot_coordinate_panel`; with duplicates, only the
first occurrence is removed. -/
theorem c1_background_not_in_loop (components : List String)
    (h : components.count BACKGROUND_KEY ≤ 1) :
    BACKGROUND_KEY ∉ loopComponents components := by
  rw [loopComponents_eq_erase]
  intro hmem
  have h1 : 0 < (components.erase BACKGROUND_KEY).count BACKGROUND_KEY :=
    List.count_pos_iff.mpr hmem
  rw [List.count_erase_self] at h1
  omega

/-- C1 witness: the amended statement at a concrete component list with one
background occurrence. -/
theorem c1_background_not_in_loop_witness :
    BACKGROUND_KEY ∉ loopComponents [BACKGROUND_KEY, "stream"] :=
  c1_background_not_in_loop [BACKGROUND_KEY, "stream"] (by decide)

/-!
C2 — the visibility mask handed to the trend renderer.
-/

/-- C2: in the generic per-component loop of the coordinate panel renderer,
the visibility mask passed to (and recorded by) the component trend
renderer is exactly the elementwise comparison `weight >= min_weight` when
the component has a weight entry, and is absent (no restriction) when it
has none: the delegated draw operations carry
`(mpars.get [comp, WEIGHT_NAME]).map (fun w => w.map (fun x => decide (min_weight ≤ x)))`
as their mask. -/
theorem c2_visibility_mask (npExp npLog : α → α)
    (labelDefaults : List (String × String)) (data : DataT α)
    (mpars : Params α) (coord : String) (coord2par : List (String × String))
    (log_weight : Bool) (min_weight : α) (comp : String) (ax axTop : Axes α)
    (phi1 mu lns : List α)
    (hphi : data.getCol "phi1" = some phi1)
    (hmu : (mpars.get_prefixed comp).get [lookupD coord2par coord coord, "mu"] = some mu)
    (hlns : (mpars.get_prefixed comp).get [lookupD coord2par coord coord, "ln-sigma"] = some lns) :
    panelLoopStep npExp npLog labelDefaults data mpars coord coord2par
      log_weight min_weight comp (ax, axTop) =
    .ok
      ({ ax with
          ops := ax.ops ++
            [.line
               (pyIndex phi1 ((mpars.get [comp, WEIGHT_NAME]).map
                 (fun w => w.map (fun x => decide (min_weight ≤ x)))))
               (pyIndex mu ((mpars.get [comp, WEIGHT_NAME]).map
                 (fun w => w.map (fun x => decide (min_weight ≤ x)))))
               (some comp) (autoColor ax.cycleIdx),
             .fillBetween phi1
               (List.zipWith (fun a b => a + b) mu
                 ((lns.map npExp).map (fun v => 2 * v)))
               (List.zipWith (fun a b => a - b) mu
                 ((lns.map npExp).map (fun v => 2 * v)))
               (autoColor ax.cycleIdx) (1/4)
               ((mpars.get [comp, WEIGHT_NAME]).map
                 (fun w => w.map (fun x => decide (min_weight ≤ x)))),
             .fillBetween phi1
               (List.zipWith (fun a b => a + b) mu (lns.map npExp))
               (List.zipWith (fun a b => a - b) mu (lns.map npExp))
               (autoColor ax.cycleIdx) (1/2)
               ((mpars.get [comp, WEIGHT_NAME]).map
                 (fun w => w.map (fun x => decide (min_weight ≤ x))))],
          cycleIdx := ax.cycleIdx + 1 },
       if (mpars.get_prefixed comp).memStr "weight" then
         { axTop with
             ops := axTop.ops ++
               [.line phi1
                 (if log_weight then
                    (((mpars.get_prefixed comp).get ["weight"]).getD []).map npLog
                  else ((mpars.get_prefixed comp).get ["weight"]).getD [])
                 (some (comp ++ "[weight]")) (autoColor axTop.cycleIdx)],
             cycleIdx := axTop.cycleIdx + 1 }
       else axTop) := by
  have hs := component_core_spec npExp npLog data mpars comp
    (lookupD coord2par coord coord) log_weight
    ((mpars.get [comp, WEIGHT_NAME]).map
      (fun w => w.map (fun x => decide (min_weight ≤ x))))
    ax (some axTop) "mu" "ln-sigma" phi1 mu lns hphi hmu hlns
  simp only [panelLoopStep, plot_coordinate_component, with_ax_panels]
  rw [hs]
  by_cases hw : (mpars.get_prefixed comp).memStr "weight"
  · simp [hw]
  · simp [hw]

/-- C2 witness: the loop step at concrete data and a weighted component
(mask `[true, true]` from `weight = [1, 1]` against `min_weight = 1/10000`). -/
theorem c2_visibility_mask_witness :
    panelLoopStep (α := ℚ) id id [] exData exParams "phi2" [] false (1/10000)
      "stream" ({}, {}) =
    .ok
      ({ ({} : Axes ℚ) with
          ops := ({} : Axes ℚ).ops ++
            [.line
               (pyIndex [0, 1] ((exParams.get ["stream", WEIGHT_NAME]).map
                 (fun w => w.map (fun x => decide ((1/10000 : ℚ) ≤ x)))))
               (pyIndex [0, 0] ((exParams.get ["stream", WEIGHT_NAME]).map
                 (fun w => w.map (fun x => decide ((1/10000 : ℚ) ≤ x)))))
               (some "stream") (autoColor ({} : Axes ℚ).cycleIdx),
             .fillBetween [0, 1]
               (List.zipWith (fun a b => a + b) [0, 0]
                 (([0, 0].map (id : ℚ → ℚ)).map (fun v => 2 * v)))
               (List.zipWith (fun a b => a - b) [0, 0]
                 (([0, 0].map (id : ℚ → ℚ)).map (fun v => 2 * v)))
               (autoColor ({} : Axes ℚ).cycleIdx) (1/4)
               ((exParams.get ["stream", WEIGHT_NAME]).map
                 (fun w => w.map (fun x => decide ((1/10000 : ℚ) ≤ x)))),
             .fillBetween [0, 1]
               (List.zipWith (fun a b => a + b) [0, 0] ([0, 0].map (id : ℚ → ℚ)))
               (List.zipWith (fun a b => a - b) [0, 0] ([0, 0].map (id : ℚ → ℚ)))
               (autoColor ({} : Axes ℚ).cycleIdx) (1/2)
               ((exParams.get ["stream", WEIGHT_NAME]).map
                 (fun w => w.map (fun x => decide ((1/10000 : ℚ) ≤ x))))],
          cycleIdx := ({} : Axes ℚ).cycleIdx + 1 },
       if (exParams.get_prefixed "stream").memStr "weight" then
         { ({} : Axes ℚ) with
             ops := ({} : Axes ℚ).ops ++
               [.line [0, 1]
                 (if false then
                    (((exParams.get_prefixed "stream").get ["weight"]).getD []).map id
                  else ((exParams.get_prefixed "stream").get ["weight"]).getD [])
                 (some ("stream" ++ "[weight]")) (autoColor ({} : Axes ℚ).cycleIdx)],
             cycleIdx := ({} : Axes ℚ).cycleIdx + 1 }
       else ({} : Axes ℚ)) :=
  c2_visibility_mask id id [] exData exParams "phi2" [] false (1/10000)
    "stream" {} {} [0, 1] [0, 0] [0, 0] rfl rfl rfl

/-!
C3 — σ-bands of the component trend renderer, with real-number semantics
for `numpy.exp` (`npExp := Real.exp`).
-/

/-- C3: the component trend renderer draws the uncertainty half-width
`sigma = exp(ln-sigma)` elementwise: the two recorded bands are
`mean ± 2·sigma` at the lower opacity 0.25 and `mean ± sigma` at the higher
opacity 0.5, and since `sigma` is non-negative at every row the 2σ band
contains the 1σ band: `mean − 2σ ≤ mean − σ ≤ mean + σ ≤ mean + 2σ`. -/
theorem c3_sigma_bands (npLog : ℝ → ℝ) (data : DataT ℝ) (mpars : Params ℝ)
    (comp coord : String) (log_weight : Bool) (m : Option (List Bool))
    (ax : Axes ℝ) (phi1 mu lns : List ℝ)
    (hphi : data.getCol "phi1" = some phi1)
    (hmu : (mpars.get_prefixed comp).get [coord, "mu"] = some mu)
    (hlns : (mpars.get_prefixed comp).get [coord, "ln-sigma"] = some lns) :
    (plot_coordinate_component_core Real.exp npLog data mpars comp coord
        log_weight m ax none "mu" "ln-sigma" =
      .ok
        ({ ax with
            ops := ax.ops ++
              [.line (pyIndex phi1 m) (pyIndex mu m) (some comp)
                 (autoColor ax.cycleIdx),
               .fillBetween phi1
                 (List.zipWith (fun a b => a + b) mu
                   ((lns.map Real.exp).map (fun v => 2 * v)))
                 (List.zipWith (fun a b => a - b) mu
                   ((lns.map Real.exp).map (fun v => 2 * v)))
                 (autoColor ax.cycleIdx) (1/4) m,
               .fillBetween phi1
                 (List.zipWith (fun a b => a + b) mu (lns.map Real.exp))
                 (List.zipWith (fun a b => a - b) mu (lns.map Real.exp))
                 (autoColor ax.cycleIdx) (1/2) m],
            cycleIdx := ax.cycleIdx + 1 }, none)) ∧
    ∀ i : ℕ,
      0 ≤ Real.exp (lns.getD i 0) ∧
      mu.getD i 0 - 2 * Real.exp (lns.getD i 0) ≤
        mu.getD i 0 - Real.exp (lns.getD i 0) ∧
      mu.getD i 0 - Real.exp (lns.getD i 0) ≤
        mu.getD i 0 + Real.exp (lns.getD i 0) ∧
      mu.getD i 0 + Real.exp (lns.getD i 0) ≤
        mu.getD i 0 + 2 * Real.exp (lns.getD i 0) := by
  constructor
  · exact component_core_spec Real.exp npLog data mpars comp coord log_weight
      m ax none "mu" "ln-sigma" phi1 mu lns hphi hmu hlns
  · intro i
    have hp := Real.exp_pos (lns.getD i 0)
    exact ⟨hp.le, by linarith, by linarith, by linarith⟩

/-- Example real-valued data table for the σ-band witness. -/
def exDataR : DataT ℝ := ⟨[("phi1", [0])]⟩

/-- Example real-valued parameters for the σ-band witness. -/
def exParamsR : Params ℝ :=
  ⟨[(["s", "phi2", "mu"], [3]), (["s", "phi2", "ln-sigma"], [0])]⟩

/-- C3 witness: the band structure at a concrete one-row input, plus the
non-negativity of the drawn half-width at row 0. -/
theorem c3_sigma_bands_witness :
    (plot_coordinate_component_core Real.exp id exDataR exParamsR "s" "phi2"
        false none ({} : Axes ℝ) none "mu" "ln-sigma" =
      .ok
        ({ ({} : Axes ℝ) with
            ops := ({} : Axes ℝ).ops ++
              [.line (pyIndex [0] none) (pyIndex [3] none) (some "s")
                 (autoColor ({} : Axes ℝ).cycleIdx),
               .fillBetween [0]
                 (List.zipWith (fun a b => a + b) [3]
                   (([(0 : ℝ)].map Real.exp).map (fun v => 2 * v)))
                 (List.zipWith (fun a b => a - b) [3]
                   (([(0 : ℝ)].map Real.exp).map (fun v => 2 * v)))
                 (autoColor ({} : Axes ℝ).cycleIdx) (1/4) none,
               .fillBetween [0]
                 (List.zipWith (fun a b => a + b) [3] ([(0 : ℝ)].map Real.exp))
                 (List.zipWith (fun a b => a - b) [3] ([(0 : ℝ)].map Real.exp))
                 (autoColor ({} : Axes ℝ).cycleIdx) (1/2) none],
            cycleIdx := ({} : Axes ℝ).cycleIdx + 1 }, none)) ∧
    0 ≤ Real.exp (([(0 : ℝ)]).getD 0 0) :=
  ⟨(c3_sigma_bands id exDataR exParamsR "s" "phi2" false none {} [0] [3] [0]
      rfl rfl rfl).1,
   ((c3_sigma_bands id exDataR exParamsR "s" "phi2" false none {} [0] [3] [0]
      rfl rfl rfl).2 0).1⟩

/-- Error message of a failed computation, if any. -/
def errMsg (e : Except String β) : Option String :=
  match e with
  | .error s => some s
  | .ok _ => none

/-- The x-arrays of the recorded line plots, in drawing order. -/
def lineXs (ops : List (PlotOp α)) : List (List α) :=
  ops.filterMap (fun op =>
    match op with
    | .line x _ _ _ => some x
    | _ => none)

/-!
C4 — behaviour on a missing weight entry.
-/

/-- C4 counterexample: the claim includes the reserved background
component, but when the background component is requested and `mpars` has
no `background.weight` entry the panel renderer raises a `KeyError` (the
weight-panel step for background indexes
`mpars[(f"{BACKGROUND_KEY}.{WEIGHT_NAME}",)]` directly instead of using a
tolerant lookup), so the rendering call errors rather than skipping. -/
theorem c4_counterexample :
    errMsg (plot_coordinate_panel_core (α := ℚ) id id [] exData exParams
      "phi1" "phi2" [BACKGROUND_KEY] [] false (1/10000) {} 10 {} {}) =
    some "KeyError: background.weight" := by
  decide

/-- C4 (amended): for a component handled in the generic per-component loop
that has no weight entry, the weight-panel drawing step is a graceful
no-op — the weight sub-panel is returned untouched — and the loop iteration
succeeds (assuming the mean and log-sigma parameters it draws exist); the
background component is excluded: its missing weight raises a `KeyError`. -/
theorem c4_no_weight_is_noop (npExp npLog : α → α)
    (labelDefaults : List (String × String)) (data : DataT α)
    (mpars : Params α) (coord : String) (coord2par : List (String × String))
    (log_weight : Bool) (min_weight : α) (comp : String) (ax axTop : Axes α)
    (phi1 mu lns : List α)
    (hw : (mpars.get_prefixed comp).memStr "weight" = false)
    (hphi : data.getCol "phi1" = some phi1)
    (hmu : (mpars.get_prefixed comp).get [lookupD coord2par coord coord, "mu"] = some mu)
    (hlns : (mpars.get_prefixed comp).get [lookupD coord2par coord coord, "ln-sigma"] = some lns) :
    panelLoopStep npExp npLog labelDefaults data mpars coord coord2par
      log_weight min_weight comp (ax, axTop) =
    .ok
      ({ ax with
          ops := ax.ops ++
            [.line phi1 mu (some comp) (autoColor ax.cycleIdx),
             .fillBetween phi1
               (List.zipWith (fun a b => a + b) mu
                 ((lns.map npExp).map (fun v => 2 * v)))
               (List.zipWith (fun a b => a - b) mu
                 ((lns.map npExp).map (fun v => 2 * v)))
               (autoColor ax.cycleIdx) (1/4) none,
             .fillBetween phi1
               (List.zipWith (fun a b => a + b) mu (lns.map npExp))
               (List.zipWith (fun a b => a - b) mu (lns.map npExp))
               (autoColor ax.cycleIdx) (1/2) none],
          cycleIdx := ax.cycleIdx + 1 },
       axTop) := by
  have hnone := get_weight_none_of_not_memStr hw
  have hs := component_core_spec npExp npLog data mpars comp
    (lookupD coord2par coord coord) log_weight
    ((mpars.get [comp, WEIGHT_NAME]).map
      (fun w => w.map (fun x => decide (min_weight ≤ x))))
    ax (some axTop) "mu" "ln-sigma" phi1 mu lns hphi hmu hlns
  simp only [panelLoopStep, plot_coordinate_component, with_ax_panels]
  rw [hs]
  simp [hw, hnone, pyIndex]

/-- C4 witness: the amended statement on concrete parameters where the
component `stream` has no weight entry. -/
theorem c4_no_weight_is_noop_witness :
    panelLoopStep (α := ℚ) id id [] exData exParamsNoW "phi2" [] false
      (1/10000) "stream" ({}, {}) =
    .ok
      ({ ({} : Axes ℚ) with
          ops := ({} : Axes ℚ).ops ++
            [.line [0, 1] [0, 0] (some "stream") (autoColor ({} : Axes ℚ).cycleIdx),
             .fillBetween [0, 1]
               (List.zipWith (fun a b => a + b) [0, 0]
                 (([0, 0].map (id : ℚ → ℚ)).map (fun v => 2 * v)))
               (List.zipWith (fun a b => a - b) [0, 0]
                 (([0, 0].map (id : ℚ → ℚ)).map (fun v => 2 * v)))
               (autoColor ({} : Axes ℚ).cycleIdx) (1/4) none,
             .fillBetween [0, 1]
               (List.zipWith (fun a b => a + b) [0, 0] ([0, 0].map (id : ℚ → ℚ)))
               (List.zipWith (fun a b => a - b) [0, 0] ([0, 0].map (id : ℚ → ℚ)))
               (autoColor ({} : Axes ℚ).cycleIdx) (1/2) none],
          cycleIdx := ({} : Axes ℚ).cycleIdx + 1 },
       ({} : Axes ℚ)) :=
  c4_no_weight_is_noop id id [] exData exParamsNoW "phi2" [] false (1/10000)
    "stream" {} {} [0, 1] [0, 0] [0, 0] (by decide) rfl rfl rfl

/-!
C5 — legend attachment.
-/

/-- C5 counterexample: with the single weight-bearing component `stream`
requested, its weight curve is drawn in the weight panel (one recorded
operation) yet no legend is attached to the weight panel, because the
module's condition is `"weight" in mpars` — a top-level key lookup that is
false for component-prefixed keys such as `stream.weight`.  This refutes
"a legend is attached to the weight panel iff at least one weight-bearing
component was plotted". -/
theorem c5_counterexample :
    (plot_coordinate_panel_core (α := ℚ) id id [] exData exParams "phi1"
        "phi2" ["stream"] [] false (1/10000) {} 10 {} {}).toOption.map
      (fun r => (r.2.ops.length, r.2.meta.legendFs)) =
    some (1, none) := by
  decide

/-- C5 (amended): after a successful run of the coordinate panel renderer a
legend is always attached to the value panel, and a legend is attached to
the (fresh) weight panel iff the parameter mapping has a top-level entry
keyed exactly `weight` (an unprefixed weight), irrespective of which weight
curves were plotted. -/
theorem c5_legend_iff_weight_key (npExp npLog : α → α)
    (labelDefaults : List (String × String)) (data : DataT α)
    (mpars : Params α) (indep_coord coord : String) (components : List String)
    (coord2par : List (String × String)) (log_weight : Bool) (min_weight : α)
    (kw : KW) (rcFontSize : ℚ) (ax axTop : Axes α)
    (htop : axTop.meta.legendFs = none)
    (hok : exOk (plot_coordinate_panel_core npExp npLog labelDefaults data
      mpars indep_coord coord components coord2par log_weight min_weight kw
      rcFontSize ax axTop) = true) :
    (plot_coordinate_panel_core npExp npLog labelDefaults data mpars
        indep_coord coord components coord2par log_weight min_weight kw
        rcFontSize ax axTop).toOption.map
      (fun r => (r.1.meta.legendFs, r.2.meta.legendFs)) =
    some (some (kw.legend_fontsize.getD rcFontSize),
      if mpars.memStr "weight" then some (kw.top_legend_fontsize.getD rcFontSize)
      else none) := by
  cases hr : plot_coordinate_panel_core npExp npLog labelDefaults data mpars
      indep_coord coord components coord2par log_weight min_weight kw
      rcFontSize ax axTop with
  | error e => rw [hr] at hok; simp [exOk] at hok
  | ok r =>
    obtain ⟨ycol, lo, hi, hyc, hlo, hhi, hameta, htmeta⟩ :=
      panel_core_spec npExp npLog labelDefaults data mpars indep_coord coord
        components coord2par log_weight min_weight kw rcFontSize ax axTop hr
    simp [Except.toOption, hameta, htmeta, htop]

/-- C5 witness: the amended statement at a concrete successful run without
an unprefixed `weight` key (no weight-panel legend). -/
theorem c5_legend_iff_weight_key_witness :
    (plot_coordinate_panel_core (α := ℚ) id id [] exData exParams "phi1"
        "phi2" ["stream"] [] false (1/10000) {} 10 {} {}).toOption.map
      (fun r => (r.1.meta.legendFs, r.2.meta.legendFs)) =
    some (some 10, none) :=
  c5_legend_iff_weight_key id id [] exData exParams "phi1" "phi2" ["stream"]
    [] false (1/10000) {} 10 {} {} rfl (by decide)

/-!
C6 — the independent coordinate of the axis label and of the trend draw.
-/

/-- C6 counterexample: calling the panel renderer with the independent
coordinate `"x"` (whose column is `[5, 6]`), the value panel's x-axis is
labelled `$\phi_1$` (not `"x"`) and the component trend line is drawn
against the hardcoded `phi1` column `[0, 1]`, not against the supplied
independent coordinate's column — only the raw-data draw (the first line
in the trace) uses the `"x"` column. -/
theorem c6_counterexample :
    (plot_coordinate_panel (α := ℚ) id id [] exData exParams "x" "phi2"
        ["stream"] [] false (mkRat 1 10000) {} 10
        { ax := none, ax_top := none, fig := some (), gs := some () }).toOption.map
      (fun r => (r.1.meta.xlabel, lineXs r.1.ops)) =
      some (some "$\\phi_1$", [[5, 6], [0, 1]]) ∧
    exData.getCol "x" = some [5, 6] ∧
    ([(0 : ℚ), 1] ≠ [5, 6]) ∧
    ("$\\phi_1$" ≠ "x") := by
  refine ⟨by decide, by decide, by decide, by decide⟩

/-- C6 (amended): the value sub-panel built from a figure and grid cell is
always x-labelled with the fixed string `$\phi_1$`, whatever independent
coordinate is supplied to the panel renderer, and the component trend
renderer draws the mean line against the hardcoded `"phi1"` column of the
data, whatever its mask; label and drawn column agree with the supplied
independent coordinate only when it is `phi1` itself. -/
theorem c6_hardcoded_phi1 :
    (∀ (npExp npLog : α → α) (labelDefaults : List (String × String))
       (data : DataT α) (mpars : Params α) (indep_coord coord : String)
       (components : List String) (coord2par : List (String × String))
       (log_weight : Bool) (min_weight : α) (kw : KW) (rcFontSize : ℚ),
       exOk (plot_coordinate_panel npExp npLog labelDefaults data mpars
         indep_coord coord components coord2par log_weight min_weight kw
         rcFontSize
         { ax := none, ax_top := none, fig := some (), gs := some () }) = true →
       (plot_coordinate_panel npExp npLog labelDefaults data mpars indep_coord
           coord components coord2par log_weight min_weight kw rcFontSize
           { ax := none, ax_top := none, fig := some (), gs := some () }).toOption.map
         (fun r => r.1.meta.xlabel) = some (some "$\\phi_1$")) ∧
    (∀ (npExp npLog : α → α) (data : DataT α) (mpars : Params α)
       (comp coord : String) (log_weight : Bool) (m : Option (List Bool))
       (ax : Axes α) (ax_top : Option (Axes α)) (y yErr : String)
       (phi1 mu lns : List α),
       data.getCol "phi1" = some phi1 →
       (mpars.get_prefixed comp).get [coord, y] = some mu →
       (mpars.get_prefixed comp).get [coord, yErr] = some lns →
       (plot_coordinate_component_core npExp npLog data mpars comp coord
           log_weight m ax ax_top y yErr).toOption.map
         (fun r => lineXs r.1.ops) =
       some (lineXs ax.ops ++ [pyIndex phi1 m])) := by
  constructor
  · intro npExp npLog labelDefaults data mpars indep_coord coord components
      coord2par log_weight min_weight kw rcFontSize hok
    have hok2 : exOk (plot_coordinate_panel_core npExp npLog labelDefaults
        data mpars indep_coord coord components coord2par log_weight
        min_weight kw rcFontSize
        ((Axes.set_xlabel {} "$\\phi_1$").set_ylabel
          (lookupD labelDefaults coord coord))
        ((Axes.hideXTickLabels {}).set_ylabel "weight")) = true := hok
    show (plot_coordinate_panel_core npExp npLog labelDefaults data mpars
        indep_coord coord components coord2par log_weight min_weight kw
        rcFontSize
        ((Axes.set_xlabel {} "$\\phi_1$").set_ylabel
          (lookupD labelDefaults coord coord))
        ((Axes.hideXTickLabels {}).set_ylabel "weight")).toOption.map
      (fun r => r.1.meta.xlabel) = some (some "$\\phi_1$")
    cases hr : plot_coordinate_panel_core npExp npLog labelDefaults data mpars
        indep_coord coord components coord2par log_weight min_weight kw
        rcFontSize
        ((Axes.set_xlabel {} "$\\phi_1$").set_ylabel
          (lookupD labelDefaults coord coord))
        ((Axes.hideXTickLabels {}).set_ylabel "weight") with
    | error e => rw [hr] at hok2; simp [exOk] at hok2
    | ok r =>
      obtain ⟨ycol, lo, hi, hyc, hlo, hhi, hameta, htmeta⟩ :=
        panel_core_spec npExp npLog labelDefaults data mpars indep_coord coord
          components coord2par log_weight min_weight kw rcFontSize
          ((Axes.set_xlabel {} "$\\phi_1$").set_ylabel
            (lookupD labelDefaults coord coord))
          ((Axes.hideXTickLabels {}).set_ylabel "weight") hr
      simp [Except.toOption, hameta, Axes.set_xlabel, Axes.set_ylabel]
  · intro npExp npLog data mpars comp coord log_weight m ax ax_top y yErr
      phi1 mu lns hphi hmu hlns
    rw [component_core_spec npExp npLog data mpars comp coord log_weight m ax
      ax_top y yErr phi1 mu lns hphi hmu hlns]
    simp [Except.toOption, lineXs, List.filterMap_append]

/-- C6 witness: both amended facts at concrete inputs — the fixed
`$\phi_1$` label of the panel built with independent coordinate `"x"`, and
the trend line of the component renderer drawn against the `phi1`
column. -/
theorem c6_hardcoded_phi1_witness :
    ((plot_coordinate_panel (α := ℚ) id id [] exData exParams "x" "phi2"
        ["stream"] [] false (1/10000) {} 10
        { ax := none, ax_top := none, fig := some (), gs := some () }).toOption.map
      (fun r => r.1.meta.xlabel) = some (some "$\\phi_1$")) ∧
    ((plot_coordinate_component_core (α := ℚ) id id exData exParams "stream"
        "phi2" false none {} none "mu" "ln-sigma").toOption.map
      (fun r => lineXs r.1.ops) =
     some (lineXs ({} : Axes ℚ).ops ++ [pyIndex [0, 1] none])) :=
  ⟨c6_hardcoded_phi1.1 id id [] exData exParams "x" "phi2" ["stream"] []
     false (1/10000) {} 10 (by decide),
   c6_hardcoded_phi1.2 id id exData exParams "stream" "phi2" false none {}
     none "mu" "ln-sigma" [0, 1] [0, 0] [0, 0] rfl rfl rfl⟩

/-!
C7 — value-panel y-limits.
-/

/-- C7: after a successful run of the coordinate panel renderer, the value
panel's y-limits are exactly the minimum and maximum of the plotted
dependent-coordinate column of the data, whatever components were overlaid
and wherever their bands extend. -/
theorem c7_ylim_minmax (npExp npLog : α → α)
    (labelDefaults : List (String × String)) (data : DataT α)
    (mpars : Params α) (indep_coord coord : String) (components : List String)
    (coord2par : List (String × String)) (log_weight : Bool) (min_weight : α)
    (kw : KW) (rcFontSize : ℚ) (ax axTop : Axes α) (ycol : List α) (lo hi : α)
    (hy : data.getCol coord = some ycol)
    (hlo : numpyMin ycol = .ok lo)
    (hhi : numpyMax ycol = .ok hi)
    (hok : exOk (plot_coordinate_panel_core npExp npLog labelDefaults data
      mpars indep_coord coord components coord2par log_weight min_weight kw
      rcFontSize ax axTop) = true) :
    (plot_coordinate_panel_core npExp npLog labelDefaults data mpars
        indep_coord coord components coord2par log_weight min_weight kw
        rcFontSize ax axTop).toOption.map
      (fun r => r.1.meta.ylim) = some (some (lo, hi)) := by
  cases hr : plot_coordinate_panel_core npExp npLog labelDefaults data mpars
      indep_coord coord components coord2par log_weight min_weight kw
      rcFontSize ax axTop with
  | error e => rw [hr] at hok; simp [exOk] at hok
  | ok r =>
    obtain ⟨ycol2, lo2, hi2, hy2, hlo2, hhi2, hameta, htmeta⟩ :=
      panel_core_spec npExp npLog labelDefaults data mpars indep_coord coord
        components coord2par log_weight min_weight kw rcFontSize ax axTop hr
    rw [hy] at hy2
    obtain rfl : ycol = ycol2 := Option.some.inj hy2
    rw [hlo] at hlo2
    obtain rfl : lo = lo2 := Except.ok.inj hlo2
    rw [hhi] at hhi2
    obtain rfl : hi = hi2 := Except.ok.inj hhi2
    simp [Except.toOption, hameta]

/-- C7 witness: the y-limits at a concrete run equal the min and max of the
`phi2` column `[1, 2]`. -/
theorem c7_ylim_minmax_witness :
    (plot_coordinate_panel_core (α := ℚ) id id [] exData exParams "phi1"
        "phi2" ["stream"] [] false (mkRat 1 10000) {} 10 {} {}).toOption.map
      (fun r => r.1.meta.ylim) = some (some (1, 2)) :=
  c7_ylim_minmax id id [] exData exParams "phi1" "phi2" ["stream"] [] false
    (mkRat 1 10000) {} 10 {} {} [1, 2] 1 2 rfl rfl rfl (by decide)

/-!
C8 — the weight curve of the component trend renderer.
-/

/-- C8: when a weight panel is supplied and the component's parameter set
includes a weight, the component trend renderer draws the weight curve
against the full `phi1` column — not restricted by the visibility mask —
labelled `component + "[weight]"`, log-transformed exactly when
`log_weight` is set. -/
theorem c8_weight_curve_unmasked (npExp npLog : α → α) (data : DataT α)
    (mpars : Params α) (comp coord : String) (log_weight : Bool)
    (m : Option (List Bool)) (ax t : Axes α) (y yErr : String)
    (phi1 mu lns w : List α)
    (hphi : data.getCol "phi1" = some phi1)
    (hmu : (mpars.get_prefixed comp).get [coord, y] = some mu)
    (hlns : (mpars.get_prefixed comp).get [coord, yErr] = some lns)
    (hwv : (mpars.get_prefixed comp).get ["weight"] = some w) :
    plot_coordinate_component_core npExp npLog data mpars comp coord
      log_weight m ax (some t) y yErr =
    .ok
      ({ ax with
          ops := ax.ops ++
            [.line (pyIndex phi1 m) (pyIndex mu m) (some comp)
               (autoColor ax.cycleIdx),
             .fillBetween phi1
               (List.zipWith (fun a b => a + b) mu
                 ((lns.map npExp).map (fun v => 2 * v)))
               (List.zipWith (fun a b => a - b) mu
                 ((lns.map npExp).map (fun v => 2 * v)))
               (autoColor ax.cycleIdx) (1/4) m,
             .fillBetween phi1
               (List.zipWith (fun a b => a + b) mu (lns.map npExp))
               (List.zipWith (fun a b => a - b) mu (lns.map npExp))
               (autoColor ax.cycleIdx) (1/2) m],
          cycleIdx := ax.cycleIdx + 1 },
       some { t with
          ops := t.ops ++
            [.line phi1 (if log_weight then w.map npLog else w)
               (some (comp ++ "[weight]")) (autoColor t.cycleIdx)],
          cycleIdx := t.cycleIdx + 1 }) := by
  have hmem := memStr_of_get hwv
  rw [component_core_spec npExp npLog data mpars comp coord log_weight m ax
    (some t) y yErr phi1 mu lns hphi hmu hlns]
  simp [hmem, hwv]

/-- C8 witness: the weight curve at a concrete input covers the whole
`phi1` column `[0, 1]` even though the mask hides every row. -/
theorem c8_weight_curve_unmasked_witness :
    plot_coordinate_component_core (α := ℚ) id id exData exParams "stream"
      "phi2" false (some [false, false]) {} (some {}) "mu" "ln-sigma" =
    .ok
      ({ ({} : Axes ℚ) with
          ops := ({} : Axes ℚ).ops ++
            [.line (pyIndex [0, 1] (some [false, false]))
               (pyIndex [0, 0] (some [false, false])) (some "stream")
               (autoColor ({} : Axes ℚ).cycleIdx),
             .fillBetween [0, 1]
               (List.zipWith (fun a b => a + b) [0, 0]
                 (([0, 0].map (id : ℚ → ℚ)).map (fun v => 2 * v)))
               (List.zipWith (fun a b => a - b) [0, 0]
                 (([0, 0].map (id : ℚ → ℚ)).map (fun v => 2 * v)))
               (autoColor ({} : Axes ℚ).cycleIdx) (1/4) (some [false, false]),
             .fillBetween [0, 1]
               (List.zipWith (fun a b => a + b) [0, 0] ([0, 0].map (id : ℚ → ℚ)))
               (List.zipWith (fun a b => a - b) [0, 0] ([0, 0].map (id : ℚ → ℚ)))
               (autoColor ({} : Axes ℚ).cycleIdx) (1/2) (some [false, false])],
          cycleIdx := ({} : Axes ℚ).cycleIdx + 1 },
       some { ({} : Axes ℚ) with
          ops := ({} : Axes ℚ).ops ++
            [.line [0, 1] (if false then [(1 : ℚ), 1].map id else [(1 : ℚ), 1])
               (some ("stream" ++ "[weight]")) (autoColor ({} : Axes ℚ).cycleIdx)],
          cycleIdx := ({} : Axes ℚ).cycleIdx + 1 }) :=
  c8_weight_curve_unmasked id id exData exParams "stream" "phi2" false
    (some [false, false]) {} {} "mu" "ln-sigma" [0, 1] [0, 0] [0, 0] [1, 1]
    rfl rfl rfl rfl

/-!
C9 — the deprecated singular `coord` keyword.
-/

/-- C9: when the composition entry point is called with the singular
keyword `coord`, it raises the `ValueError` immediately — the result is the
error and no figure (no per-coordinate sub-panel pair) is produced; the
check precedes the figure and grid construction in the body. -/
theorem c9_coord_value_error (npExp npLog : α → α)
    (labelDefaults : List (String × String)) (data : DataT α)
    (mpars : Params α) (components coords : List String)
    (coord2par : Option (List (String × String))) (log_weight : Bool)
    (min_weight : α) (kw : KW) (rcFontSize : ℚ)
    (h : kw.has_coord = true) :
    astrometric_model_panels npExp npLog labelDefaults data mpars components
      coords coord2par log_weight min_weight kw rcFontSize =
    .error "Use `coords` instead of `coord`." := by
  simp [astrometric_model_panels, h]

/-- C9 witness: the entry point at a concrete call with the singular
keyword present. -/
theorem c9_coord_value_error_witness :
    astrometric_model_panels (α := ℚ) id id [] exData exParams ["stream"]
      ["phi2"] none false (mkRat 1 10000) { has_coord := true } 10 =
    .error "Use `coords` instead of `coord`." :=
  c9_coord_value_error id id [] exData exParams ["stream"] ["phi2"] none
    false (mkRat 1 10000) { has_coord := true } 10 rfl

/-!
C10 — missing layout arguments.
-/

omit [LinearOrderedField α] in
/-- C10: whenever neither the pair `ax`/`ax_top` nor the pair `fig`/`gs` is
supplied to a panel-building call, the `_with_ax_panels` decorator fails
with the descriptive `KeyError` and the wrapped plotting function is never
invoked — the result is this error for every wrapped function `f`. -/
theorem c10_layout_key_error {R : Type}
    (f : Axes α → Option (Axes α) → Except String R)
    (labelDefaults : List (String × String)) (coord : String)
    (layout : PanelLayout α)
    (h1 : layout.ax = none ∨ layout.ax_top = none)
    (h2 : layout.fig = none ∨ layout.gs = none) :
    with_ax_panels f labelDefaults coord layout =
    .error "Must provide either `ax` and `ax_top` or `fig` and `gs`." := by
  obtain ⟨la, lt, lf, lg⟩ := layout
  simp only at h1 h2
  cases la <;> cases lt <;> cases lf <;> cases lg <;>
    simp_all [with_ax_panels]

/-- C10 witness: the empty layout is rejected with the `KeyError` for a
concrete wrapped function. -/
theorem c10_layout_key_error_witness :
    with_ax_panels (α := ℚ) (fun _ _ => Except.ok (0 : ℕ)) [] "phi2"
      { ax := none, ax_top := none, fig := none, gs := none } =
    .error "Must provide either `ax` and `ax_top` or `fig` and `gs`." :=
  c10_layout_key_error (fun _ _ => Except.ok (0 : ℕ)) [] "phi2"
    { ax := none, ax_top := none, fig := none, gs := none }
    (Or.inl rfl) (Or.inl rfl)

end StreamMapperViz
